import Mathlib

/-!
Shallow embedding of the scheduler task core (`scheduler/task.go`):
the task state machine and its spin loop, the task registry
(`taskCollection`), and the identifier generator.

Modelling conventions:
* `time.Time` values are modelled as `Nat` nanosecond-like instants; the Go
  zero value `time.Time{}` is `0`.  The spin loop threads an explicit clock
  `now` that strictly increases by one per loop iteration, reflecting that
  `time.Now()` returns a fresh, strictly larger instant at each fire.
* The spin loop's `select` between the schedule-response channel and the
  kill channel is modelled by a list of `SpinInput` values: each element is
  the outcome the `select` observes on one iteration.  An exhausted list
  means the loop is still blocked waiting (result flag `false`); a `true`
  flag means the loop executed `return`.
* The workflow collaborator (`schedulerWorkflow.Start`) lives outside this
  file's source; its write-back of failure data is modelled from the spec
  (see `workflowStart`).
* The Go channels themselves carry no data relevant to the claims; the kill
  channel is modelled by the `killChanClosed` flag plus the `SpinInput.kill`
  observation.
-/

namespace Scheduler

/-- Task lifecycle states (`core.TaskState`). -/
inductive TaskState where
  | Stopped
  | Spinning
  | Firing
  | Ended
  | Disabled
deriving DecidableEq, Repr

/-- Schedule response states (`schedule.Active`, `schedule.Ended`, `schedule.Error`). -/
inductive ScheduleState where
  | Active
  | Ended
  | Error
deriving DecidableEq, Repr

/-- Modelled from the spec: the outcome the workflow collaborator reports for
one fire — `Succeeded` or `Failed(reason)` in the spec's words.  The workflow
code (`schedulerWorkflow.Start`) is outside `task.go`. -/
inductive WorkflowResult where
  | succeed
  | fail (msg : String)
deriving DecidableEq, Repr

/-- The `task` struct of `task.go`, restricted to the fields the claims are
about.  External collaborator references (schedule, workflow, managers,
emitter) and the channels carry no data relevant to the claims; the kill
channel is modelled by `killChanClosed`. -/
structure Task where
  id : Nat
  name : String
  state : TaskState
  creationTime : Nat
  lastFireTime : Nat
  deadlineDuration : Nat
  hitCount : Nat
  missedIntervals : Nat
  failedRuns : Nat
  lastFailureMessage : String
  lastFailureTime : Nat
  stopOnFailure : Nat
  killChanClosed : Bool
deriving DecidableEq, Repr

/-- `time.Second` in nanoseconds. -/
def timeSecond : Nat := 1000000000

/-- `DefaultDeadlineDuration = time.Second * 5`. -/
def DefaultDeadlineDuration : Nat := timeSecond * 5

/-- `DefaultStopOnFailure = 3`. -/
def DefaultStopOnFailure : Nat := 3

/-- `newTask`: builds the task with its defaults, then applies the option
functions in order.  The id is passed in (the Go code obtains it from the
generator `id()`); `creationTime` stands for `time.Now()` at construction. -/
def newTask (taskId : Nat) (creationTime : Nat) (opts : List (Task → Task)) : Task :=
  let base : Task :=
    { id := taskId
      name := "Task-" ++ toString taskId
      state := TaskState.Stopped
      creationTime := creationTime
      lastFireTime := 0
      deadlineDuration := DefaultDeadlineDuration
      hitCount := 0
      missedIntervals := 0
      failedRuns := 0
      lastFailureMessage := ""
      lastFailureTime := 0
      stopOnFailure := DefaultStopOnFailure
      killChanClosed := false }
  opts.foldl (fun t o => o t) base

/-- `SetStopOnFailure`. -/
def SetStopOnFailure (t : Task) (v : Nat) : Task :=
  { t with stopOnFailure := v }

/-- `SetDeadlineDuration`. -/
def SetDeadlineDuration (t : Task) (d : Nat) : Task :=
  { t with deadlineDuration := d }

/-- `Spin`: if the state is `Stopped`, set it to `Spinning`, allocate a fresh
(open) kill channel and launch the spin loop; otherwise do nothing.  The
returned flag records whether a new spin loop goroutine was launched. -/
def Spin (t : Task) : Task × Bool :=
  if t.state = TaskState.Stopped then
    ({ t with state := TaskState.Spinning, killChanClosed := false }, true)
  else
    (t, false)

/-- `Stop`: if the state is `Firing` or `Spinning`, close the kill channel. -/
def Stop (t : Task) : Task :=
  if t.state = TaskState.Firing ∨ t.state = TaskState.Spinning then
    { t with killChanClosed := true }
  else
    t

/-- `Kill`: if the state is `Firing` or `Spinning`, close the kill channel and
force the state to `Disabled`. -/
def Kill (t : Task) : Task :=
  if t.state = TaskState.Firing ∨ t.state = TaskState.Spinning then
    { t with killChanClosed := true, state := TaskState.Disabled }
  else
    t

/-- First half of `fire`: set the state to `Firing` (under the lock). -/
def fireBegin (t : Task) : Task :=
  { t with state := TaskState.Firing }

/-- Modelled from the spec: the workflow collaborator's `Start(t)` write-back
path.  On failure it records the failure message, increments the failed-run
counter and sets the last-failure timestamp to the current instant — which is
exactly the `lastFireTime` the spin loop just recorded, producing the
timestamp equality the loop tests.  On success it writes nothing. -/
def workflowStart (w : WorkflowResult) (t : Task) : Task :=
  match w with
  | WorkflowResult.succeed => t
  | WorkflowResult.fail msg =>
      { t with failedRuns := t.failedRuns + 1
               lastFailureMessage := msg
               lastFailureTime := t.lastFireTime }

/-- Second half of `fire`: set the state back to `Spinning`. -/
def fireEnd (t : Task) : Task :=
  { t with state := TaskState.Spinning }

/-- `fire`: transition `Spinning → Firing`, run the workflow synchronously,
transition back `Firing → Spinning`. -/
def fire (t : Task) (w : WorkflowResult) : Task :=
  fireEnd (workflowStart w (fireBegin t))

/-- `scheduler_event.TaskDisabledEvent` as emitted by the spin loop. -/
structure TaskDisabledEvent where
  TaskID : Nat
  Why : String
deriving DecidableEq, Repr

/-- One outcome of the spin loop's `select`: either the kill channel fired,
or a schedule response arrived.  For an `Active` response, `missed` is the
response's missed-tick count and `w` the workflow outcome of the resulting
fire (the workflow collaborator's behaviour is an input to the loop). -/
inductive SpinInput where
  | kill
  | resp (state : ScheduleState) (missed : Nat) (w : WorkflowResult)
deriving DecidableEq, Repr

/-- The counter/timestamp updates of the `schedule.Active` branch before the
fire: accumulate missed intervals, record `time.Now()` as `lastFireTime`,
increment the hit count. -/
def activeUpdate (t : Task) (missed now : Nat) : Task :=
  { t with missedIntervals := t.missedIntervals + missed
           lastFireTime := now
           hitCount := t.hitCount + 1 }

/-- The disabled event built on the failure-threshold path:
`TaskID = t.id`, `Why = "Task disabled with error: " + lastFailureMessage`. -/
def disabledEvent (t : Task) : TaskDisabledEvent :=
  { TaskID := t.id
    Why := "Task disabled with error: " ++ t.lastFailureMessage }

/-- The spin loop (`task.spin`).  `consecutiveFailures` is the loop's local
counter, `now` the current clock instant (incremented each iteration).  The
result is the final task, the list of emitted disabled events, and whether
the loop executed `return` (`false` means it is still blocked waiting for
the next `select` outcome). -/
def spin (t : Task) (consecutiveFailures now : Nat) :
    List SpinInput → Task × List TaskDisabledEvent × Bool
  | [] => (t, [], false)
  | SpinInput.kill :: _ =>
      ({ t with state := TaskState.Stopped, lastFireTime := 0 }, [], true)
  | SpinInput.resp s missed w :: rest =>
      match s with
      | ScheduleState.Active =>
          let t2 := fire (activeUpdate t missed now) w
          let cf := if t2.lastFailureTime = t2.lastFireTime
                    then consecutiveFailures + 1 else 0
          if t2.stopOnFailure ≤ cf then
            ({ t2 with state := TaskState.Disabled }, [disabledEvent t2], true)
          else
            spin t2 cf (now + 1) rest
      | ScheduleState.Ended =>
          ({ t with state := TaskState.Ended }, [], true)
      | ScheduleState.Error =>
          ({ t with state := TaskState.Disabled }, [], true)

/-- Registry errors (`ErrTaskNotFound`, `ErrTaskNotStopped`,
`ErrTaskHasAlreadyBeenAdded`). -/
inductive RegError where
  | ErrTaskNotFound
  | ErrTaskNotStopped
  | ErrTaskHasAlreadyBeenAdded
deriving DecidableEq, Repr

/-- `taskCollection`: the registry's map from task id to task, modelled as an
association list keyed by id. -/
structure TaskCollection where
  table : List (Nat × Task)
deriving DecidableEq, Repr

/-- `newTaskCollection`. -/
def newTaskCollection : TaskCollection := ⟨[]⟩

/-- `Get`: lookup by id, `none` when absent. -/
def Get (c : TaskCollection) (i : Nat) : Option Task :=
  c.table.lookup i

/-- `add`: insert the task keyed by its id; error (and no change) when the id
is already present. -/
def add (c : TaskCollection) (t : Task) : Except RegError TaskCollection :=
  match c.table.lookup t.id with
  | none => Except.ok ⟨(t.id, t) :: c.table⟩
  | some _ => Except.error RegError.ErrTaskHasAlreadyBeenAdded

/-- `remove`: error when the id is absent, error when the task is not
`Stopped`, otherwise delete the entry. -/
def remove (c : TaskCollection) (t : Task) : Except RegError TaskCollection :=
  match c.table.lookup t.id with
  | some _ =>
      if t.state ≠ TaskState.Stopped then
        Except.error RegError.ErrTaskNotStopped
      else
        Except.ok ⟨c.table.filter (fun p => p.1 != t.id)⟩
  | none => Except.error RegError.ErrTaskNotFound

/-- The identifier generator `id()`: `atomic.AddUint64(&idCounter, 1)` on a
`uint64` counter, so the increment wraps modulo `2 ^ 64`; the call returns
the updated counter. -/
def id (counter : Nat) : Nat :=
  (counter + 1) % 2 ^ 64

/-- The counter value after `n` calls of `id`, starting from the zero-valued
package variable `idCounter`. -/
def idCounterAfter : Nat → Nat
  | 0 => 0
  | n + 1 => id (idCounterAfter n)

/-- The value returned by the `n`-th call of `id` (1-based): each call
returns the counter value it just produced. -/
def idRet (n : Nat) : Nat := idCounterAfter n

/-- A sample freshly constructed task, used by witnesses. -/
def task1 : Task := newTask 1 0 []

/-- `task1` with its stop-on-failure threshold overridden. -/
def task1k (k : Nat) : Task := SetStopOnFailure task1 k

end Scheduler

namespace Scheduler

/-- A sample spinning task, used by witnesses. -/
def task1Spinning : Task := (Spin task1).1

/-- A registry holding `task1Spinning` under id 1, used by witnesses. -/
def regSpinning : TaskCollection := ⟨[(1, task1Spinning)]⟩

/-- A registry holding the stopped `task1` under id 1, used by witnesses. -/
def regStopped : TaskCollection := ⟨[(1, task1)]⟩

/-- One spin iteration on an `Active` response whose fire fails: the
consecutive-failure counter increments, and the loop either disables the
task (threshold reached) or continues. -/
theorem spin_fail_step (t : Task) (cf now missed : Nat) (msg : String)
    (rest : List SpinInput) :
    spin t cf now (SpinInput.resp ScheduleState.Active missed (WorkflowResult.fail msg) :: rest) =
      if t.stopOnFailure ≤ cf + 1 then
        ({ fire (activeUpdate t missed now) (WorkflowResult.fail msg) with
             state := TaskState.Disabled },
         [disabledEvent (fire (activeUpdate t missed now) (WorkflowResult.fail msg))], true)
      else
        spin (fire (activeUpdate t missed now) (WorkflowResult.fail msg)) (cf + 1) (now + 1) rest := by
  simp [spin, fire, fireBegin, fireEnd, workflowStart, activeUpdate, disabledEvent]

/-- One spin iteration on an `Active` response whose fire succeeds (and whose
previous failure instant differs from the current clock): the counter resets
to zero, and the loop disables the task only when the threshold is zero. -/
theorem spin_succeed_step (t : Task) (cf now missed : Nat) (rest : List SpinInput)
    (hc : t.lastFailureTime ≠ now) :
    spin t cf now (SpinInput.resp ScheduleState.Active missed WorkflowResult.succeed :: rest) =
      if t.stopOnFailure = 0 then
        ({ fire (activeUpdate t missed now) WorkflowResult.succeed with
             state := TaskState.Disabled },
         [disabledEvent (fire (activeUpdate t missed now) WorkflowResult.succeed)], true)
      else
        spin (fire (activeUpdate t missed now) WorkflowResult.succeed) 0 (now + 1) rest := by
  simp [spin, fire, fireBegin, fireEnd, workflowStart, activeUpdate, disabledEvent, hc]

/-- A run of `j` consecutive failing fires, with `cf + j` equal to the
threshold, disables the task, terminates the loop, and emits exactly one
disabled event with the task's id and the failure message. -/
theorem spin_fail_run :
    ∀ (j : Nat) (t : Task) (cf now missed : Nat) (msg : String) (rest : List SpinInput),
      1 ≤ j → cf + j = t.stopOnFailure →
      ∃ t2,
        spin t cf now
            (List.replicate j (SpinInput.resp ScheduleState.Active missed (WorkflowResult.fail msg)) ++ rest) =
          (t2, [{ TaskID := t.id, Why := "Task disabled with error: " ++ msg }], true) ∧
        t2.state = TaskState.Disabled := by
  intro j
  induction j with
  | zero => intro t cf now missed msg rest h1 _; exact absurd h1 (by omega)
  | succ j ih =>
    intro t cf now missed msg rest _ h2
    rw [List.replicate_succ, List.cons_append, spin_fail_step]
    rcases Nat.eq_zero_or_pos j with hj | hj
    · subst hj
      rw [if_pos (by omega)]
      refine ⟨{ fire (activeUpdate t missed now) (WorkflowResult.fail msg) with
                  state := TaskState.Disabled }, ?_, rfl⟩
      simp [disabledEvent, fire, fireBegin, fireEnd, workflowStart, activeUpdate]
    · rw [if_neg (by omega)]
      obtain ⟨t2, heq, hst⟩ :=
        ih (fire (activeUpdate t missed now) (WorkflowResult.fail msg)) (cf + 1) (now + 1)
          missed msg rest hj
          (by simp [fire, fireBegin, fireEnd, workflowStart, activeUpdate]; omega)
      refine ⟨t2, ?_, hst⟩
      rw [heq]
      simp [fire, fireBegin, fireEnd, workflowStart, activeUpdate]

/-- Any spin run emits at most one disabled event. -/
theorem spin_events_length :
    ∀ (inputs : List SpinInput) (t : Task) (cf now : Nat),
      ((spin t cf now inputs).2.1).length ≤ 1 := by
  intro inputs
  induction inputs with
  | nil => intro t cf now; simp [spin]
  | cons x rest ih =>
    intro t cf now
    cases x with
    | kill => simp [spin]
    | resp s missed w =>
      cases s with
      | Active =>
        simp only [spin]
        split <;> split
        · simp
        · exact ih _ _ _
        · simp
        · exact ih _ _ _
      | Ended => simp [spin]
      | Error => simp [spin]

/-- If a spin run emits any disabled event, the run terminated with the task
in the `Disabled` state: events arise only on the failure-threshold path. -/
theorem spin_event_disabled :
    ∀ (inputs : List SpinInput) (t : Task) (cf now : Nat),
      (spin t cf now inputs).2.1 ≠ [] →
      (spin t cf now inputs).1.state = TaskState.Disabled ∧
      (spin t cf now inputs).2.2 = true := by
  intro inputs
  induction inputs with
  | nil => intro t cf now h; simp [spin] at h
  | cons x rest ih =>
    intro t cf now
    cases x with
    | kill => intro h; simp [spin] at h
    | resp s missed w =>
      cases s with
      | Active =>
        simp only [spin]
        split <;> split
        · intro _; exact ⟨rfl, rfl⟩
        · exact ih _ _ _
        · intro _; exact ⟨rfl, rfl⟩
        · exact ih _ _ _
      | Ended => intro h; simp [spin] at h
      | Error => intro h; simp [spin] at h

/-- Looking up a key after filtering out every pair with that key finds
nothing. -/
theorem lookup_filter_self (l : List (Nat × Task)) (i : Nat) :
    List.lookup i (l.filter (fun p => p.1 != i)) = none := by
  induction l with
  | nil => simp
  | cons p rest ih =>
    by_cases hp : p.1 = i
    · simp [List.filter_cons, hp, ih]
    · have hb1 : (p.1 != i) = true := bne_iff_ne.mpr hp
      have hb2 : (i == p.1) = false := beq_eq_false_iff_ne.mpr (Ne.symm hp)
      simp [List.filter_cons, hb1, List.lookup, hb2, ih]

/-- Closed form of the generator counter: after `n` calls it holds
`n % 2 ^ 64`. -/
theorem idCounterAfter_eq (n : Nat) : idCounterAfter n = n % 2 ^ 64 := by
  induction n with
  | zero => simp [idCounterAfter]
  | succ n ih =>
    have h1 : idCounterAfter (n + 1) = (idCounterAfter n + 1) % 2 ^ 64 := rfl
    rw [h1, ih]
    have h2 : (2 : Nat) ^ 64 = 18446744073709551616 := by norm_num
    rw [h2]
    omega

end Scheduler

namespace Scheduler

/-- Claim C1: for a task with stop-on-failure threshold `k ≥ 1`, `k`
consecutive failing fires disable the task immediately after the `k`-th
failing fire, terminate the spin loop (any further inputs are unconsumed),
and emit exactly one task-disabled event carrying the task id and the last
failure message; a successful fire before the `k`-th failure resets the
consecutive-failure counter to zero. -/
theorem C1_failure_threshold (t : Task) (k now missed cf m2 : Nat) (msg : String)
    (rest rest2 : List SpinInput)
    (hk : 1 ≤ k) (hth : t.stopOnFailure = k) (hc : t.lastFailureTime ≠ now) :
    (spin t 0 now
        (List.replicate k (SpinInput.resp ScheduleState.Active missed (WorkflowResult.fail msg)) ++
          rest)).1.state = TaskState.Disabled ∧
    (spin t 0 now
        (List.replicate k (SpinInput.resp ScheduleState.Active missed (WorkflowResult.fail msg)) ++
          rest)).2.1 =
      [{ TaskID := t.id, Why := "Task disabled with error: " ++ msg }] ∧
    (spin t 0 now
        (List.replicate k (SpinInput.resp ScheduleState.Active missed (WorkflowResult.fail msg)) ++
          rest)).2.2 = true ∧
    spin t cf now (SpinInput.resp ScheduleState.Active m2 WorkflowResult.succeed :: rest2) =
      spin (fire (activeUpdate t m2 now) WorkflowResult.succeed) 0 (now + 1) rest2 := by
  obtain ⟨t2, heq, hst⟩ := spin_fail_run k t 0 now missed msg rest hk (by omega)
  refine ⟨?_, ?_, ?_, ?_⟩
  · rw [heq]; exact hst
  · rw [heq]
  · rw [heq]
  · rw [spin_succeed_step t cf now m2 rest2 hc, if_neg (by omega)]

theorem C1_witness :
    (spin (task1k 2) 0 7
        (List.replicate 2 (SpinInput.resp ScheduleState.Active 1 (WorkflowResult.fail "boom")) ++
          [])).1.state = TaskState.Disabled ∧
    (spin (task1k 2) 0 7
        (List.replicate 2 (SpinInput.resp ScheduleState.Active 1 (WorkflowResult.fail "boom")) ++
          [])).2.1 =
      [{ TaskID := 1, Why := "Task disabled with error: " ++ "boom" }] ∧
    (spin (task1k 2) 0 7
        (List.replicate 2 (SpinInput.resp ScheduleState.Active 1 (WorkflowResult.fail "boom")) ++
          [])).2.2 = true ∧
    spin (task1k 2) 0 7 (SpinInput.resp ScheduleState.Active 0 WorkflowResult.succeed :: []) =
      spin (fire (activeUpdate (task1k 2) 0 7) WorkflowResult.succeed) 0 (7 + 1) [] :=
  C1_failure_threshold (task1k 2) 2 7 1 0 0 "boom" [] [] (by decide) (by decide) (by decide)

/-- Claim C2: `Stop` on a `Spinning` (or `Firing`) task closes the kill
channel; when the spin loop observes the kill signal it sets the state to
`Stopped`, resets `lastFireTime` to the zero value and terminates; the
resulting stopped task can be started again by `Spin`. -/
theorem C2_stop_then_restart (t : Task) (cf now : Nat) (rest : List SpinInput)
    (hs : t.state = TaskState.Spinning ∨ t.state = TaskState.Firing) :
    (Stop t).killChanClosed = true ∧
    spin t cf now (SpinInput.kill :: rest) =
      ({ t with state := TaskState.Stopped, lastFireTime := 0 }, [], true) ∧
    Spin { t with state := TaskState.Stopped, lastFireTime := 0 } =
      ({ t with state := TaskState.Spinning, lastFireTime := 0, killChanClosed := false },
       true) := by
  refine ⟨?_, rfl, ?_⟩
  · rcases hs with h | h <;> simp [Stop, h]
  · simp [Spin]

theorem C2_witness :
    (Stop task1Spinning).killChanClosed = true ∧
    spin task1Spinning 0 3 (SpinInput.kill :: []) =
      ({ task1Spinning with state := TaskState.Stopped, lastFireTime := 0 }, [], true) ∧
    Spin { task1Spinning with state := TaskState.Stopped, lastFireTime := 0 } =
      ({ task1Spinning with
          state := TaskState.Spinning, lastFireTime := 0, killChanClosed := false }, true) :=
  C2_stop_then_restart task1Spinning 0 3 [] (by decide)

/-- Claim C3: on an `Active` schedule response the loop adds the reported
missed count to `missedIntervals`, records the current instant as
`lastFireTime`, increments `hitCount` by one and fires synchronously,
passing `Spinning → Firing → Spinning`; for the Scenario-B run (`Active`
with missed = 2, then `Ended`, always-succeeding workflow) the final state
is `Ended` with `hitCount = 1` and `missedIntervals = 2`. -/
theorem C3_active_fire (t : Task) (cf now m : Nat) (w : WorkflowResult)
    (rest : List SpinInput)
    (hc : t.lastFailureTime ≠ now) (hth : 1 ≤ t.stopOnFailure) :
    spin t cf now (SpinInput.resp ScheduleState.Active m WorkflowResult.succeed :: rest) =
      spin (fire (activeUpdate t m now) WorkflowResult.succeed) 0 (now + 1) rest ∧
    (activeUpdate t m now).missedIntervals = t.missedIntervals + m ∧
    (activeUpdate t m now).lastFireTime = now ∧
    (activeUpdate t m now).hitCount = t.hitCount + 1 ∧
    (fireBegin (activeUpdate t m now)).state = TaskState.Firing ∧
    (fire (activeUpdate t m now) w).state = TaskState.Spinning ∧
    (spin (newTask 1 0 []) 0 1
        [SpinInput.resp ScheduleState.Active 2 WorkflowResult.succeed,
         SpinInput.resp ScheduleState.Ended 0 WorkflowResult.succeed]).1.state =
      TaskState.Ended ∧
    (spin (newTask 1 0 []) 0 1
        [SpinInput.resp ScheduleState.Active 2 WorkflowResult.succeed,
         SpinInput.resp ScheduleState.Ended 0 WorkflowResult.succeed]).1.hitCount = 1 ∧
    (spin (newTask 1 0 []) 0 1
        [SpinInput.resp ScheduleState.Active 2 WorkflowResult.succeed,
         SpinInput.resp ScheduleState.Ended 0 WorkflowResult.succeed]).1.missedIntervals = 2 := by
  refine ⟨?_, rfl, rfl, rfl, rfl, ?_, by decide, by decide, by decide⟩
  · rw [spin_succeed_step t cf now m rest hc, if_neg (by omega)]
  · cases w <;> rfl

theorem C3_witness :
    spin task1 0 1 (SpinInput.resp ScheduleState.Active 2 WorkflowResult.succeed :: []) =
      spin (fire (activeUpdate task1 2 1) WorkflowResult.succeed) 0 (1 + 1) [] ∧
    (activeUpdate task1 2 1).missedIntervals = 0 + 2 ∧
    (activeUpdate task1 2 1).lastFireTime = 1 ∧
    (activeUpdate task1 2 1).hitCount = 0 + 1 ∧
    (fireBegin (activeUpdate task1 2 1)).state = TaskState.Firing ∧
    (fire (activeUpdate task1 2 1) WorkflowResult.succeed).state = TaskState.Spinning ∧
    (spin (newTask 1 0 []) 0 1
        [SpinInput.resp ScheduleState.Active 2 WorkflowResult.succeed,
         SpinInput.resp ScheduleState.Ended 0 WorkflowResult.succeed]).1.state =
      TaskState.Ended ∧
    (spin (newTask 1 0 []) 0 1
        [SpinInput.resp ScheduleState.Active 2 WorkflowResult.succeed,
         SpinInput.resp ScheduleState.Ended 0 WorkflowResult.succeed]).1.hitCount = 1 ∧
    (spin (newTask 1 0 []) 0 1
        [SpinInput.resp ScheduleState.Active 2 WorkflowResult.succeed,
         SpinInput.resp ScheduleState.Ended 0 WorkflowResult.succeed]).1.missedIntervals = 2 :=
  C3_active_fire task1 0 1 2 WorkflowResult.succeed [] (by decide) (by decide)

/-- Claim C4: an `Ended` response sets the state to `Ended` and terminates
the loop, an `Error` response sets the state to `Disabled` and terminates,
and neither emits a task-disabled event; globally, any spin run emits at
most one disabled event, and a run that emits one ended in the `Disabled`
state via the failure-threshold path. -/
theorem C4_ended_error_events (t : Task) (cf now missed cf2 n2 : Nat)
    (w : WorkflowResult) (rest inputs : List SpinInput)
    (hne : (spin t cf2 n2 inputs).2.1 ≠ []) :
    spin t cf now (SpinInput.resp ScheduleState.Ended missed w :: rest) =
      ({ t with state := TaskState.Ended }, [], true) ∧
    spin t cf now (SpinInput.resp ScheduleState.Error missed w :: rest) =
      ({ t with state := TaskState.Disabled }, [], true) ∧
    ((spin t cf2 n2 inputs).2.1).length ≤ 1 ∧
    (spin t cf2 n2 inputs).1.state = TaskState.Disabled ∧
    (spin t cf2 n2 inputs).2.2 = true := by
  obtain ⟨h1, h2⟩ := spin_event_disabled inputs t cf2 n2 hne
  exact ⟨rfl, rfl, spin_events_length inputs t cf2 n2, h1, h2⟩

theorem C4_witness :
    spin (task1k 1) 0 1 (SpinInput.resp ScheduleState.Ended 0 WorkflowResult.succeed :: []) =
      ({ task1k 1 with state := TaskState.Ended }, [], true) ∧
    spin (task1k 1) 0 1 (SpinInput.resp ScheduleState.Error 0 WorkflowResult.succeed :: []) =
      ({ task1k 1 with state := TaskState.Disabled }, [], true) ∧
    ((spin (task1k 1) 0 1
        [SpinInput.resp ScheduleState.Active 0 (WorkflowResult.fail "boom")]).2.1).length ≤ 1 ∧
    (spin (task1k 1) 0 1
        [SpinInput.resp ScheduleState.Active 0 (WorkflowResult.fail "boom")]).1.state =
      TaskState.Disabled ∧
    (spin (task1k 1) 0 1
        [SpinInput.resp ScheduleState.Active 0 (WorkflowResult.fail "boom")]).2.2 = true :=
  C4_ended_error_events (task1k 1) 0 1 0 0 1 WorkflowResult.succeed []
    [SpinInput.resp ScheduleState.Active 0 (WorkflowResult.fail "boom")] (by decide)

end Scheduler

namespace Scheduler

/-- Claim C5: `remove` returns the not-found error when the id is absent,
returns the not-stopped error when the id is present but the task is not
`Stopped` (leaving the task registered), and succeeds — deleting the
entry — exactly when the id is present and the task is `Stopped`; error
cases leave the registry mapping unchanged (the operation yields no new
table). -/
theorem C5_remove_cases (c : TaskCollection) (t t0 : Task) :
    (c.table.lookup t.id = none →
        remove c t = Except.error RegError.ErrTaskNotFound) ∧
    (c.table.lookup t.id = some t0 → t.state ≠ TaskState.Stopped →
        remove c t = Except.error RegError.ErrTaskNotStopped ∧
        Get c t.id = some t0) ∧
    (c.table.lookup t.id = some t0 → t.state = TaskState.Stopped →
        remove c t = Except.ok ⟨c.table.filter (fun p => p.1 != t.id)⟩ ∧
        Get ⟨c.table.filter (fun p => p.1 != t.id)⟩ t.id = none) := by
  refine ⟨?_, ?_, ?_⟩
  · intro h; simp [remove, h]
  · intro h hs; exact ⟨by simp [remove, h, hs], h⟩
  · intro h hs
    refine ⟨by simp [remove, h, hs], ?_⟩
    exact lookup_filter_self c.table t.id

theorem C5_witness :
    remove newTaskCollection task1 = Except.error RegError.ErrTaskNotFound ∧
    (remove regSpinning task1Spinning = Except.error RegError.ErrTaskNotStopped ∧
     Get regSpinning task1Spinning.id = some task1Spinning) ∧
    (remove regStopped task1 = Except.ok ⟨[]⟩ ∧
     Get (⟨[]⟩ : TaskCollection) task1.id = none) :=
  ⟨(C5_remove_cases newTaskCollection task1 task1).1 (by decide),
   (C5_remove_cases regSpinning task1Spinning task1Spinning).2.1 (by decide) (by decide),
   (C5_remove_cases regStopped task1 task1).2.2 (by decide) (by decide)⟩

/-- Claim C6: `add` succeeds when the task's id is not yet in the table (and
the task becomes retrievable), and when the id is already present it returns
the already-added error without overwriting, so the originally stored task
remains retrievable unchanged via `Get`. -/
theorem C6_add_cases (c : TaskCollection) (t t0 : Task) :
    (c.table.lookup t.id = none →
        add c t = Except.ok ⟨(t.id, t) :: c.table⟩ ∧
        Get ⟨(t.id, t) :: c.table⟩ t.id = some t) ∧
    (c.table.lookup t.id = some t0 →
        add c t = Except.error RegError.ErrTaskHasAlreadyBeenAdded ∧
        Get c t.id = some t0) := by
  refine ⟨?_, ?_⟩
  · intro h
    refine ⟨by simp [add, h], ?_⟩
    show List.lookup t.id ((t.id, t) :: c.table) = some t
    simp [List.lookup]
  · intro h
    exact ⟨by simp [add, h], h⟩

theorem C6_witness :
    (add newTaskCollection task1 = Except.ok ⟨[(1, task1)]⟩ ∧
     Get ⟨[(1, task1)]⟩ task1.id = some task1) ∧
    (add regStopped (task1k 5) = Except.error RegError.ErrTaskHasAlreadyBeenAdded ∧
     Get regStopped (task1k 5).id = some task1) :=
  ⟨(C6_add_cases newTaskCollection task1 task1).1 (by decide),
   (C6_add_cases regStopped (task1k 5) task1).2 (by decide)⟩

/-- Claim C7: `Spin` has an effect only when the state is exactly `Stopped`:
it then sets the state to `Spinning`, opens a fresh kill channel and reports
that one spin loop was launched, and a second call without an intervening
stop is a no-op that launches nothing and changes no field; in any other
state `Spin` returns the task unchanged with no loop launched. -/
theorem C7_spin_noop (t : Task) :
    (t.state = TaskState.Stopped →
        Spin t = ({ t with state := TaskState.Spinning, killChanClosed := false }, true) ∧
        Spin (Spin t).1 = ((Spin t).1, false)) ∧
    (t.state ≠ TaskState.Stopped → Spin t = (t, false)) := by
  constructor
  · intro h
    have h1 : Spin t =
        ({ t with state := TaskState.Spinning, killChanClosed := false }, true) := by
      simp [Spin, h]
    refine ⟨h1, ?_⟩
    rw [h1]
    simp [Spin]
  · intro h
    simp [Spin, h]

theorem C7_witness :
    (Spin task1 = ({ task1 with state := TaskState.Spinning, killChanClosed := false }, true) ∧
     Spin (Spin task1).1 = ((Spin task1).1, false)) ∧
    Spin (Kill task1Spinning) = (Kill task1Spinning, false) :=
  ⟨(C7_spin_noop task1).1 (by decide), (C7_spin_noop (Kill task1Spinning)).2 (by decide)⟩

/-- Claim C8: immediately after construction (before option functions run)
the state is `Stopped`, the hit, missed-interval and failed-run counters are
zero, the deadline duration defaults to five seconds and the stop-on-failure
threshold defaults to three. -/
theorem C8_newTask_defaults (i c : Nat) :
    (newTask i c []).state = TaskState.Stopped ∧
    (newTask i c []).hitCount = 0 ∧
    (newTask i c []).missedIntervals = 0 ∧
    (newTask i c []).failedRuns = 0 ∧
    (newTask i c []).deadlineDuration = timeSecond * 5 ∧
    (newTask i c []).stopOnFailure = 3 :=
  ⟨rfl, rfl, rfl, rfl, rfl, rfl⟩

/-- Claim C9: with the stop-on-failure threshold set to 0, the first
`Active` response disables the task and emits a disabled event even though
that fire succeeded, because the `>=` threshold check runs after the success
branch reset the consecutive-failure counter to zero. -/
theorem C9_zero_threshold_disables (t : Task) (now m : Nat) (rest : List SpinInput)
    (h0 : t.stopOnFailure = 0) (hc : t.lastFailureTime ≠ now) :
    spin t 0 now (SpinInput.resp ScheduleState.Active m WorkflowResult.succeed :: rest) =
      ({ fire (activeUpdate t m now) WorkflowResult.succeed with
           state := TaskState.Disabled },
       [disabledEvent (fire (activeUpdate t m now) WorkflowResult.succeed)], true) ∧
    (disabledEvent (fire (activeUpdate t m now) WorkflowResult.succeed)).TaskID = t.id := by
  constructor
  · rw [spin_succeed_step t 0 now m rest hc, if_pos h0]
  · rfl

theorem C9_witness :
    spin (task1k 0) 0 1 (SpinInput.resp ScheduleState.Active 0 WorkflowResult.succeed :: []) =
      ({ fire (activeUpdate (task1k 0) 0 1) WorkflowResult.succeed with
           state := TaskState.Disabled },
       [disabledEvent (fire (activeUpdate (task1k 0) 0 1) WorkflowResult.succeed)], true) ∧
    (disabledEvent (fire (activeUpdate (task1k 0) 0 1) WorkflowResult.succeed)).TaskID = 1 :=
  C9_zero_threshold_disables (task1k 0) 1 0 [] (by decide) (by decide)

/-- Claim C10 counterexample: the generator's `uint64` counter wraps modulo
`2 ^ 64`, so the `2 ^ 64`-th call returns 0 — contradicting "never returns
0" — and the following call repeats the value of the first call,
contradicting strict increase and no-reuse over the whole process
lifetime. -/
theorem C10_counterexample :
    idRet (2 ^ 64) = 0 ∧ idRet (2 ^ 64 + 1) = idRet 1 := by
  constructor
  · show idCounterAfter (2 ^ 64) = 0
    rw [idCounterAfter_eq, Nat.mod_self]
  · show idCounterAfter (2 ^ 64 + 1) = idCounterAfter 1
    rw [idCounterAfter_eq, idCounterAfter_eq, Nat.add_mod_left]

/-- Claim C10 (amended): among the first `2 ^ 64 - 1` calls, the identifier
generator never returns 0 and each call returns a value strictly greater
than every earlier call's value, so any realistic sequence of task creations
yields distinct, strictly increasing ids with no reuse; the `uint64` counter
wraps after `2 ^ 64` calls. -/
theorem C10_increasing_before_wrap (m n : Nat)
    (h1 : 0 < n) (h2 : n < 2 ^ 64) (h3 : m < n) :
    idRet n ≠ 0 ∧ idRet m < idRet n := by
  have hn : idRet n = n := by
    show idCounterAfter n = n
    rw [idCounterAfter_eq, Nat.mod_eq_of_lt h2]
  have hm : idRet m = m := by
    show idCounterAfter m = m
    rw [idCounterAfter_eq, Nat.mod_eq_of_lt (lt_trans h3 h2)]
  rw [hn, hm]
  exact ⟨by omega, h3⟩

theorem C10_witness :
    idRet 2 ≠ 0 ∧ idRet 1 < idRet 2 :=
  C10_increasing_before_wrap 1 2 (by decide) (by decide) (by decide)

end Scheduler
